import Mathlib

/-!
Verification development for the SciProto agent orchestration loop.

This file gives a shallow embedding, in Lean, of the parts of the SciProto
source that drive the self-correcting code-generation loop:

* the client-side agent loop of `src/app/prototype/[id]/page.tsx`
  (the `sendMessage` / `handlePrototypeError` variant, and the
  `startAgentLoop` / `handleRenderStatus` status-machine variant),
* the revision of the same page kept in the repository (referred to here
  as the `part_006` revision) whose `handleRenderStatus` reports a render
  success back to the model,
* the NDJSON stream translation of `src/app/api/agent/route.ts` and of its
  revision (referred to as the `part_012` revision) that deduplicates
  tool calls,
* the gateway retry loop and overload handling of the agent route,
* the paper-context injection of the agent route,
* `writeDb` / `savePrototype` from `src/lib/db.ts` and from its earlier
  revision without the try/catch around the file write.

Conventions of the embedding: the result of `JSON.parse` on one NDJSON line
is modelled as an `Option LineJson` (`none` when the line fails to parse and
the catch-block skips it); asynchronous callbacks are modelled by an event
type processed sequentially, with React ref/state synchronisation assumed to
happen between two event deliveries; `crypto.randomUUID()` is modelled by a
counter; instrumentation counters (`gatewayCalls`, `fixSubmissions`,
`codesSet`, `version`) record the observable actions the claims talk about
(opening a request to `/api/agent`, triggering a self-correction, handing a
code string to the sandbox) and are not read by the embedded logic itself.
Sandbox outcome events carry a ghost `version` field recording which render
produced them; the real `postMessage` payload has no version field, and the
embedded handlers never inspect it.
-/

/-- One decoded NDJSON event object, as emitted by the agent route and
consumed by the page: a `text` fragment, a `tool_call` (with the optional
`args.code` payload), an `error` (with its `retryable` flag), or `done`. -/
inductive LineJson where
  | text (content : String)
  | toolCall (name : String) (code : Option String)
  | errorEv (message : String) (retryable : Bool)
  | done
deriving DecidableEq, Repr

/-- Message role in the chat page state (page.tsx `Message.role`). -/
inductive Role where
  | user
  | assistant
deriving DecidableEq, Repr

/-- A chat message of the page state (page.tsx `interface Message`), with
`crypto.randomUUID()` modelled by a numeric id. -/
structure Msg where
  id : Nat
  role : Role
  content : String
  isStreaming : Bool
deriving DecidableEq, Repr

/-- Word character in the sense of the regex class used by the
code-fence-stripping regexes of page.tsx. -/
def isWordChar (c : Char) : Bool :=
  c.isAlphanum || c = '_'

/-- First `replace` of page.tsx on a tool-call code payload: removes a
leading fence of three backticks, a run of word characters (the language
tag) and an optional newline, when present at the very start. -/
def stripFrontFence : List Char → List Char
  | '`' :: '`' :: '`' :: rest =>
      match rest.dropWhile isWordChar with
      | '\n' :: rest2 => rest2
      | rest1 => rest1
  | l => l

/-- Second `replace` of page.tsx: removes a trailing fence of three
backticks and one preceding newline, when present at the very end. -/
def stripBackFence (l : List Char) : List Char :=
  match l.reverse with
  | '`' :: '`' :: '`' :: '\n' :: rest => rest.reverse
  | '`' :: '`' :: '`' :: rest => rest.reverse
  | _ => l

/-- The code-fence stripping that page.tsx applies to `json.args?.code`
before handing the code to the sandbox. -/
def stripCodeFences (s : String) : String :=
  ⟨stripBackFence (stripFrontFence s.data)⟩

/-- The mutable data touched by the per-line dispatch inside the stream
read loop of page.tsx `sendMessage`: the message list (updated through
`setMessages`), the prototype code (`setPrototypeCode`), and the local
`accumulatedText`. `codesSet` and `version` are instrumentation: the list
of code strings handed to the sandbox, in order, and a counter of accepted
code versions. -/
structure StreamAcc where
  messages : List Msg
  prototypeCode : String
  accumulatedText : String
  codesSet : List String
  version : Nat
deriving DecidableEq, Repr

/-- Replace the content of the in-flight assistant message, as the
`setMessages(prev => prev.map(...))` updates of page.tsx do. -/
def setAssistantContent (aid : Nat) (content : String) (ms : List Msg) : List Msg :=
  ms.map fun m => if m.id = aid then { m with content := content } else m

/-- The body of the `for (const line of lines)` loop of page.tsx
`sendMessage`: a line that failed `JSON.parse` (modelled `none`) is skipped
by the catch block; a `text` event with truthy content extends the
accumulated text; a `tool_call` named `render_prototype` with a non-empty
de-fenced code sets the prototype code; an `error` event appends a warning
line to the accumulated text. -/
def processLine (aid : Nat) (acc : StreamAcc) : Option LineJson → StreamAcc
  | none => acc
  | some (.text c) =>
      if c = "" then acc
      else
        let newText := acc.accumulatedText ++ c
        { acc with
            accumulatedText := newText
            messages := setAssistantContent aid newText acc.messages }
  | some (.toolCall name codeArg) =>
      if name = "render_prototype" then
        let code := stripCodeFences (codeArg.getD (""))
        if code = "" then acc
        else
          { acc with
              prototypeCode := code
              codesSet := acc.codesSet ++ [code]
              version := acc.version + 1 }
      else acc
  | some (.errorEv message _) =>
      let newText := acc.accumulatedText ++ ("\n⚠️ Error: " ++ message)
      { acc with
          accumulatedText := newText
          messages := setAssistantContent aid newText acc.messages }
  | some .done => acc

/-- The whole stream read loop of page.tsx `sendMessage`, over the sequence
of per-line parse results. -/
def processLines (aid : Nat) (acc : StreamAcc) (lines : List (Option LineJson)) : StreamAcc :=
  lines.foldl (processLine aid) acc

/-- The page state of the `sendMessage` variant of page.tsx, together with
instrumentation. `pendingAssistant` is the id of the streaming assistant
message captured by the in-flight request's closure; `gatewayCalls` counts
requests opened to `/api/agent`; `fixSubmissions` counts the requests that
were opened by the prototype-error path. -/
structure ClientState where
  messages : List Msg
  prototypeCode : String
  isLoading : Bool
  nextId : Nat
  pendingAssistant : Option Nat
  gatewayCalls : Nat
  fixSubmissions : Nat
  codesSet : List String
  version : Nat
deriving DecidableEq, Repr

/-- The synchronous prefix of page.tsx `sendMessage`: rejected when a
request is already in flight; otherwise appends the user message and the
streaming assistant placeholder, sets the loading flag, and opens the
request to the agent route (counted in `gatewayCalls`). The body of the
response is consumed later, by the `gatewayDone` event. -/
def sendMessage (s : ClientState) (content : String) : ClientState :=
  if s.isLoading then s
  else
    let userMsg : Msg := ⟨s.nextId, .user, content, false⟩
    let asstMsg : Msg := ⟨s.nextId + 1, .assistant, "", true⟩
    { s with
        messages := s.messages ++ [userMsg, asstMsg]
        isLoading := true
        nextId := s.nextId + 2
        pendingAssistant := some (s.nextId + 1)
        gatewayCalls := s.gatewayCalls + 1 }

/-- External events delivered to the page, processed one at a time: a user
message submitted through the chat panel, the completion of an in-flight
agent request (carrying the per-line parse results of its NDJSON body), and
the sandbox outcome messages forwarded by `PrototypeRenderer`'s
`messageHandler`. The `version` argument of the sandbox events is ghost
information recording which render produced the outcome; the real message
payload carries no version and the handlers never read it. -/
inductive ClientEvent where
  | userMessage (content : String)
  | gatewayDone (lines : List (Option LineJson))
  | sandboxError (version : Nat) (message : String)
  | sandboxSuccess (version : Nat)
deriving DecidableEq, Repr

/-- One event step of the page. `userMessage` runs `sendMessage`;
`gatewayDone` runs the stream loop and the finalization of `sendMessage`
(mark the assistant message as not streaming, clear the loading flag);
`sandboxError` is `handlePrototypeError`: when no request is in flight it
submits the fix prompt through `sendMessage` (counted in `fixSubmissions`),
otherwise it is ignored; `sandboxSuccess` is ignored by this variant
(`PrototypePanel.handleRenderStatus` only forwards errors). -/
def clientStep (s : ClientState) : ClientEvent → ClientState
  | .userMessage content => sendMessage s content
  | .gatewayDone lines =>
      match s.pendingAssistant with
      | none => s
      | some aid =>
          let acc := processLines aid
            ⟨s.messages, s.prototypeCode, "", s.codesSet, s.version⟩ lines
          { s with
              messages := acc.messages.map fun m =>
                if m.id = aid then { m with isStreaming := false } else m
              prototypeCode := acc.prototypeCode
              codesSet := acc.codesSet
              version := acc.version
              isLoading := false
              pendingAssistant := none }
  | .sandboxError _ message =>
      if s.isLoading then s
      else
        { sendMessage s ("The prototype has an error: " ++ message ++ "\n\nPlease fix it.") with
            fixSubmissions := s.fixSubmissions + 1 }
  | .sandboxSuccess _ => s

/-- Run the page over a sequence of events. -/
def runClient (s : ClientState) (events : List ClientEvent) : ClientState :=
  events.foldl clientStep s

/-- A part of a Gemini history turn, as built by the status-machine variant
of the page and by the agent route: a text part, a function-call part, or a
function-response part carrying the render outcome. -/
inductive GPart where
  | textPart (text : String)
  | functionCallPart (name : String) (code : Option String)
  | functionResponsePart (name : String) (success : Bool) (payload : String)
deriving DecidableEq, Repr

/-- One turn of the Gemini-format transcript: a role string
("user" / "model" / "tool") and its parts. -/
structure GTurn where
  role : String
  parts : List GPart
deriving DecidableEq, Repr

/-- The function response argument of `startAgentLoop`: the name of the
tool and the outcome reported back for it. -/
structure FuncResp where
  name : String
  success : Bool
  payload : String
deriving DecidableEq, Repr

/-- The loop status of the status-machine variant of the page. -/
inductive V2Status where
  | idle
  | thinking
  | executing
  | waitingForUser
deriving DecidableEq, Repr

/-- The state of the status-machine variant of the page
(`history`, `status`, `currentCode`, `agentMessage`), with the
instrumentation counter of requests opened to `/api/agent`. -/
structure V2State where
  history : List GTurn
  status : V2Status
  currentCode : String
  agentMessage : String
  gatewayCalls : Nat
deriving DecidableEq, Repr

/-- The history items that `startAgentLoop` appends optimistically: the new
user message, then the function response as a "tool" turn. -/
def startItems (userMessage : Option String) (functionResponse : Option FuncResp) : List GTurn :=
  (userMessage.map fun m => GTurn.mk ("user") [.textPart m]).toList ++
  (functionResponse.map fun fr =>
    GTurn.mk ("tool") [.functionResponsePart fr.name fr.success fr.payload]).toList

/-- The synchronous prefix of `startAgentLoop` in the status-machine
variant of the page: set status to `thinking`, clear the agent message,
append the new items to the history, and open the request to the agent
route (counted in `gatewayCalls`). -/
def startAgentLoop (s : V2State) (userMessage : Option String)
    (functionResponse : Option FuncResp) : V2State :=
  { s with
      status := .thinking
      agentMessage := ""
      history := s.history ++ startItems userMessage functionResponse
      gatewayCalls := s.gatewayCalls + 1 }

/-- A sandbox outcome as delivered to `handleRenderStatus`. -/
inductive RenderOutcome where
  | success
  | error (payload : String)
deriving DecidableEq, Repr

/-- `handleRenderStatus` of the status-machine variant of the page,
including the `onRenderStatus` wrapper that drops outcomes arriving outside
the `executing` status. On success: stop the loop, record the successful
tool result in the history, and do not call the agent route again. On
error: start a self-correction turn through `startAgentLoop`. -/
def handleRenderStatus (s : V2State) (outcome : RenderOutcome) : V2State :=
  if s.status = .executing then
    match outcome with
    | .success =>
        { s with
            status := .idle
            agentMessage := "Prototype Ready"
            history := s.history ++
              [⟨"tool", [.functionResponsePart ("render_prototype") true ("Rendered successfully.")]⟩] }
    | .error payload =>
        startAgentLoop { s with agentMessage := "Runtime Error. Retrying..." }
          none (some ⟨"render_prototype", false, payload⟩)
  else s

/-- The synchronous prefix of `startAgentLoop` in the `part_006` revision
of the page: same shape as the current one (status `thinking`, optimistic
history update, request opened). -/
def p6StartAgentLoop (s : V2State) (userMessage : Option String)
    (functionResponse : Option FuncResp) : V2State :=
  { s with
      status := .thinking
      agentMessage := ""
      history := s.history ++ startItems userMessage functionResponse
      gatewayCalls := s.gatewayCalls + 1 }

/-- `handleRenderStatus` of the `part_006` revision of the page, including
its `onRenderStatus` wrapper. In this revision a success outcome is
reported back to the model through one more `startAgentLoop` call, and an
error outcome starts the self-correction turn. -/
def p6HandleRenderStatus (s : V2State) (outcome : RenderOutcome) : V2State :=
  if s.status = .executing then
    match outcome with
    | .success =>
        p6StartAgentLoop s none
          (some ⟨"render_prototype", true, "Rendered successfully."⟩)
    | .error payload =>
        p6StartAgentLoop { s with agentMessage := "Runtime Error detected! Auto-fixing..." }
          none (some ⟨"render_prototype", false, payload⟩)
  else s

/-- A function call extracted from a model stream chunk: its name and its
arguments (`code`, `title`). -/
structure FCall where
  name : String
  code : Option String
  title : Option String
deriving DecidableEq, Repr

/-- One chunk of the Gemini response stream, as the route reads it: the
extracted text (the route tries `chunk.text` as string, as function, then
the first candidate part, which we collapse into one field), the candidate
content parts that may carry a `functionCall`, and the chunk-level
`functionCalls` array of the legacy format. -/
structure Chunk where
  text : String
  parts : List (Option FCall)
  legacyCalls : List FCall
deriving DecidableEq, Repr

/-- The events the current agent route (route.ts) emits for one chunk:
the text event when the text is truthy, then one `tool_call` event for
every `functionCall` found among the candidate parts, then one `tool_call`
event for every entry of the legacy `functionCalls` array. -/
def chunkEvents (c : Chunk) : List LineJson :=
  (if c.text = "" then [] else [.text c.text]) ++
  (c.parts.filterMap fun p => p.map fun fc => LineJson.toolCall fc.name fc.code) ++
  (c.legacyCalls.map fun fc => LineJson.toolCall fc.name fc.code)

/-- The NDJSON stream the current agent route (route.ts) produces from a
model response: the per-chunk events followed by the terminal `done`
event. -/
def routeTranslate (chunks : List Chunk) : List LineJson :=
  (chunks.flatMap chunkEvents) ++ [.done]

/-- The per-chunk step of the `part_012` revision of the route, which
threads a `functionCallSent` flag: text events require the text to be
truthy and non-blank after trim; at most one `tool_call` event is emitted
per response, taking the first `functionCall` among the candidate parts,
or else the first entry of the legacy `functionCalls` array. -/
def p12ChunkEvents (sent : Bool) (c : Chunk) : List LineJson × Bool :=
  let textEvents : List LineJson :=
    if c.text = "" ∨ c.text.trim = "" then [] else [.text c.text]
  if sent then (textEvents, true)
  else
    match c.parts.filterMap id with
    | fc :: _ => (textEvents ++ [.toolCall fc.name fc.code], true)
    | [] =>
        match c.legacyCalls with
        | fc :: _ => (textEvents ++ [.toolCall fc.name fc.code], true)
        | [] => (textEvents, false)

/-- The chunk loop of the `part_012` revision of the route, threading the
`functionCallSent` flag. -/
def p12Loop (sent : Bool) : List Chunk → List LineJson
  | [] => []
  | c :: rest =>
      let (evs, sent2) := p12ChunkEvents sent c
      evs ++ p12Loop sent2 rest

/-- The NDJSON stream the `part_012` revision of the route produces:
the guarded per-chunk events followed by the terminal `done` event. -/
def p12Translate (chunks : List Chunk) : List LineJson :=
  p12Loop false chunks ++ [.done]

/-- Recognizer for `tool_call` events, used to compare the two route
revisions. -/
def isToolCallEv : LineJson → Bool
  | .toolCall _ _ => true
  | _ => false

/-- The error thrown by a failed Gemini call: the HTTP status when present
and the error message. -/
structure GenError where
  status : Option Nat
  message : String
deriving DecidableEq, Repr

/-- Substring test, modelling `String.prototype.includes`. -/
def containsStr (s pat : String) : Bool :=
  decide (pat.data <:+: s.data)

/-- The overload classification of the agent route: HTTP status 503, or a
message mentioning "overloaded" or "503". -/
def isOverloadedErr (e : GenError) : Bool :=
  e.status = some 503 || containsStr e.message ("overloaded") || containsStr e.message ("503")

/-- `MAX_RETRIES` of the agent route. -/
def MAX_RETRIES : Nat := 3

/-- `RETRY_DELAYS` of the agent route (exponential backoff schedule, in
milliseconds). -/
def RETRY_DELAYS : List Nat := [1000, 2000, 4000]

/-- The retry `for` loop of the agent route, indexed by the current attempt
and by the remaining fuel (the loop bound); `call i` is the outcome of the
`generateContentStream` call on attempt `i`. Returns the final outcome, the
number of attempts performed, and the list of delays slept between
attempts. The fuel-exhausted branch mirrors the route's unreachable
`throw lastError || new Error(...)` fallback after the loop. -/
def retryGo (call : Nat → Except GenError α) : Nat → Nat → Except GenError α × Nat × List Nat
  | _, 0 => (.error ⟨none, "Failed to get response from Gemini"⟩, 0, [])
  | attempt, fuel + 1 =>
      match call attempt with
      | .ok r => (.ok r, attempt + 1, [])
      | .error e =>
          if isOverloadedErr e = true ∧ attempt < MAX_RETRIES - 1 then
            let (res, n, ds) := retryGo call (attempt + 1) fuel
            (res, n, RETRY_DELAYS.getD attempt 0 :: ds)
          else (.error e, attempt + 1, [])

/-- The whole gateway call of the agent route: the retry loop started at
attempt 0. -/
def gatewayCall (call : Nat → Except GenError α) : Except GenError α × Nat × List Nat :=
  retryGo call 0 MAX_RETRIES

/-- The final outcome of the gateway call. -/
def gatewayOutcome (call : Nat → Except GenError α) : Except GenError α :=
  (gatewayCall call).1

/-- The number of attempts the gateway call performed. -/
def gatewayAttempts (call : Nat → Except GenError α) : Nat :=
  (gatewayCall call).2.1

/-- The delays slept between the attempts of the gateway call. -/
def gatewayDelays (call : Nat → Except GenError α) : List Nat :=
  (gatewayCall call).2.2

/-- What the agent route returns to the client: an NDJSON stream of events,
or a plain JSON error response with an HTTP status. -/
inductive RouteResponse where
  | ndjson (events : List LineJson)
  | jsonError (status : Nat) (error : String)
deriving DecidableEq, Repr

/-- The error event the agent route streams when the model is overloaded,
marked retryable. -/
def overloadErrorEvent : LineJson :=
  .errorEv ("Model is overloaded. Please try again in a few seconds.") true

/-- The outer catch of the agent route `POST` handler: an overload-class
error becomes a streaming response holding the retryable error event and
`done`; any other error becomes a 500 JSON response. -/
def agentCatchResponse (e : GenError) : RouteResponse :=
  if isOverloadedErr e then .ndjson [overloadErrorEvent, .done]
  else .jsonError 500 ("Agent failed")

/-- The function response carried in the body of an agent-route request:
the tool name and its outcome object (`success`, and the `error` string
when present; an absent or empty `error` field is modelled by `""`). -/
structure BodyFuncResp where
  name : String
  success : Bool
  error : String
deriving DecidableEq, Repr

/-- The truncation marker the agent route appends to an over-long paper. -/
def PAPER_TRUNC_MARKER : String := "\n\n[... paper truncated for length ...]"

/-- The model acknowledgement turn the agent route injects right after the
paper text. -/
def paperAckTurn : GTurn :=
  ⟨"model", [.textPart ("I've analyzed the paper. I'll create an interactive prototype that PROVES its core concepts work. What aspect would you like me to implement?")]⟩

/-- The transcript-building prefix of the agent route `POST` handler:
start from the supplied history; when a truthy paper context is supplied
and this is the first message (empty history), inject the paper text
(truncated to its first 35000 characters plus a marker when longer than
40000 characters) and the model acknowledgement; append the new user
message when present; append the function response as a "tool" turn, with
a fixing hint added when it reports an unsuccessful render with a truthy
error. -/
def buildContents (history : List GTurn) (message : Option String)
    (functionResponse : Option BodyFuncResp) (paperContext : Option String) : List GTurn :=
  let contents := history
  let contents :=
    match paperContext with
    | some p =>
        if p ≠ "" ∧ contents = [] then
          let truncatedContext :=
            if p.length > 40000 then p.take 35000 ++ PAPER_TRUNC_MARKER else p
          contents ++
            [⟨"user", [.textPart ("PAPER TEXT:\n\n" ++ truncatedContext)]⟩, paperAckTurn]
        else contents
    | none => contents
  let contents :=
    match message with
    | some m => contents ++ [⟨"user", [.textPart m]⟩]
    | none => contents
  match functionResponse with
  | some fr =>
      if fr.success = false ∧ fr.error ≠ "" then
        contents ++
          [⟨"tool", [.functionResponsePart fr.name fr.success
            (fr.error ++ " | hint: Fix the specific error and re-render. Don't rewrite everything - make targeted fixes.")]⟩]
      else
        contents ++ [⟨"tool", [.functionResponsePart fr.name fr.success fr.error]⟩]
  | none => contents

/-- A stored prototype entry of `src/lib/db.ts`, with `Date.now()` values
modelled as naturals. -/
structure PrototypeEntry where
  id : String
  paper_hash : Option String
  title : String
  description : String
  code : String
  algorithm_info : String
  history : List GTurn
  created_at : Nat
  updated_at : Nat
deriving DecidableEq, Repr

/-- The prototypes table of the JSON-file store, as an association list
from id to entry. -/
def PrototypeTable := List (String × PrototypeEntry)

/-- The outcome of the underlying `fs.writeFileSync` call for one write. -/
def FsWriteResult := Except String Unit

/-- The data argument of `savePrototype`. -/
structure SavePrototypeData where
  paper_hash : Option String
  title : String
  description : Option String
  code : String
  algorithm_info : Option String
  history : List GTurn
deriving DecidableEq, Repr

/-- `writeDb` of the current `src/lib/db.ts`: the file write is wrapped in
try/catch, a failure is logged ("[DB] Write failed") and swallowed, so the
function always returns normally. The second component is the log
output. -/
def writeDb (w : FsWriteResult) : Except String Unit × List String :=
  match w with
  | .ok () => (.ok (), [])
  | .error e => (.ok (), [("[DB] Write failed (serverless?): " ++ e)])

/-- `writeDb` of the earlier revision of `src/lib/db.ts`: the file write is
performed unguarded, so a failure propagates as an exception to the
caller. -/
def writeDbRev (w : FsWriteResult) : Except String Unit × List String :=
  match w with
  | .ok () => (.ok (), [])
  | .error e => (.error e, [])

/-- The entry `savePrototype` stores: fields from the data argument with
the source's defaulting, `created_at` kept from the existing entry when
present, and `updated_at` set to now. -/
def savedEntry (table : PrototypeTable) (id : String) (data : SavePrototypeData)
    (now : Nat) : PrototypeEntry :=
  { id := id
    paper_hash := data.paper_hash
    title := data.title
    description := data.description.getD ("")
    code := data.code
    algorithm_info := data.algorithm_info.getD ("")
    history := data.history
    created_at := ((table.lookup id).map PrototypeEntry.created_at).getD now
    updated_at := now }

/-- Store an entry under an id, replacing any existing binding
(`db.prototypes[id] = ...`). -/
def tableInsert (table : PrototypeTable) (id : String) (entry : PrototypeEntry) :
    PrototypeTable :=
  (id, entry) :: table.filter fun kv => kv.1 ≠ id

/-- `savePrototype` of the current `src/lib/db.ts`: upsert the entry and
call `writeDb`; since `writeDb` swallows write failures, the function
always returns the updated table (plus the log output). -/
def savePrototype (table : PrototypeTable) (id : String) (data : SavePrototypeData)
    (now : Nat) (w : FsWriteResult) : Except String (PrototypeTable × List String) :=
  let table2 := tableInsert table id (savedEntry table id data now)
  match writeDb w with
  | (.ok (), logs) => .ok (table2, logs)
  | (.error e, _) => .error e

/-- `savePrototype` as compiled against the earlier revision's `writeDb`:
the unguarded write failure propagates out of `savePrototype` to its
caller. -/
def savePrototypeRev (table : PrototypeTable) (id : String) (data : SavePrototypeData)
    (now : Nat) (w : FsWriteResult) : Except String (PrototypeTable × List String) :=
  let table2 := tableInsert table id (savedEntry table id data now)
  match writeDbRev w with
  | (.ok (), logs) => .ok (table2, logs)
  | (.error e, _) => .error e

/-- The page state right after mount: no messages, no prototype, not
loading. -/
def emptyClientState : ClientState :=
  ⟨[], "", false, 0, none, 0, 0, [], 0⟩

/-- A page state with a request in flight. -/
def busyClientState : ClientState :=
  ⟨[⟨0, .user, "make a prototype", false⟩, ⟨1, .assistant, "", true⟩],
   "", true, 2, some 1, 1, 0, [], 0⟩

/-- One full self-correction round as seen by the page: a sandbox error
report (for the only code version, 1) followed by the completion of the
repair request it triggers, here with a text-only reply. -/
def fixRound : List ClientEvent :=
  [.sandboxError 1 ("boom"), .gatewayDone [some (.text ("Let me look at that."))]]

/-- A run of `k` consecutive self-correction rounds. -/
def fixTrace (k : Nat) : List ClientEvent :=
  (List.replicate k fixRound).flatten

/-- A trace in which code version 1 is rendered and then reports the same
runtime error twice: once acted on (triggering a repair whose reply changes
nothing), and once after that repair has completed. -/
def dupErrorTrace : List ClientEvent :=
  [.userMessage ("make a prototype"),
   .gatewayDone [some (.toolCall ("render_prototype") (some ("const A = 1")))],
   .sandboxError 1 ("x is not defined"),
   .gatewayDone [some (.text ("Hmm, that looks fine to me."))],
   .sandboxError 1 ("x is not defined")]

/-- A trace that renders code version 1 and then supersedes it with code
version 2, with no sandbox outcome for version 1 delivered yet. -/
def supersededTrace : List ClientEvent :=
  [.userMessage ("make a prototype"),
   .gatewayDone [some (.toolCall ("render_prototype") (some ("const A = 1")))],
   .userMessage ("change it"),
   .gatewayDone [some (.toolCall ("render_prototype") (some ("const B = 2")))]]

/-- A model response chunk carrying two candidate `render_prototype` calls
in the same turn. -/
def twoToolCallChunk : Chunk :=
  ⟨"", [some ⟨"render_prototype", some ("const A = 1"), none⟩,
        some ⟨"render_prototype", some ("const B = 2"), none⟩], []⟩

/-- A status-machine page state waiting for the sandbox outcome of the
current code. -/
def execV2State : V2State :=
  ⟨[], .executing, "const A = 1", "", 0⟩

/-- Sample data for a `savePrototype` call. -/
def sampleSaveData : SavePrototypeData :=
  ⟨none, "Gradient Descent", some ("demo"), "const A = 1", none, []⟩

/-- A gateway call whose every attempt fails with an overload error. -/
def overloadCall : Nat → Except GenError Nat :=
  fun _ => .error ⟨some 503, "The model is overloaded"⟩

/-- One more fixture: the end-to-end trace for a model turn carrying two
candidate tool calls, as translated by the current route and consumed by
the page. -/
def twoToolCallTrace : List ClientEvent :=
  [.userMessage ("make a prototype"),
   .gatewayDone ((routeTranslate [twoToolCallChunk]).map some)]

theorem processLines_filter_isSome (aid : Nat) (acc : StreamAcc)
    (lines : List (Option LineJson)) :
    processLines aid acc lines = processLines aid acc (lines.filter Option.isSome) := by
  induction lines generalizing acc with
  | nil => rfl
  | cons hd tl ih =>
    cases hd with
    | none => simpa [processLines] using ih acc
    | some j => simpa [processLines] using ih (processLine aid acc (some j))

/-- Claim C4: the streaming decoder never aborts on a line that fails to
parse as JSON; malformed lines are skipped and every valid event before and
after them is still applied, so deleting the malformed lines from the input
does not change the result, and in particular two text events surrounding
one malformed line are both applied. -/
theorem c4_decoder_skips_malformed_lines :
    (∀ (aid : Nat) (acc : StreamAcc) (lines : List (Option LineJson)),
       processLines aid acc lines = processLines aid acc (lines.filter Option.isSome))
  ∧ (∀ (aid : Nat) (acc : StreamAcc) (t1 t2 : String),
       processLines aid acc [some (.text t1), none, some (.text t2)]
         = processLines aid acc [some (.text t1), some (.text t2)]) := by
  refine ⟨processLines_filter_isSome, fun aid acc t1 t2 => ?_⟩
  simpa using processLines_filter_isSome aid acc [some (.text t1), none, some (.text t2)]

/-- Claim C9: a send invocation made while a previous one is still in
flight is rejected: no message is appended, the prototype code is
unchanged, and no gateway request is opened — the page state is exactly as
before the call. -/
theorem c9_submit_rejected_while_loading (s : ClientState) (content : String)
    (h : s.isLoading = true) : sendMessage s content = s := by
  simp [sendMessage, h]

/-- Witness for claim C9 at a concrete in-flight state. -/
theorem c9_submit_rejected_while_loading_witness :
    busyClientState.isLoading = true
  ∧ sendMessage busyClientState ("another request") = busyClientState :=
  ⟨rfl, c9_submit_rejected_while_loading busyClientState ("another request") rfl⟩

/-- Claim C5, amended: duplicate sandbox error reports arriving while the
repair request is in flight are ignored (the state is unchanged); the
suppression window is the in-flight request, not the code version. -/
theorem c5_duplicate_error_ignored_while_fixing (s : ClientState) (v : Nat)
    (message : String) (h : s.isLoading = true) :
    clientStep s (.sandboxError v message) = s := by
  simp [clientStep, h]

/-- Witness for claim C5 at a concrete in-flight state. -/
theorem c5_duplicate_error_ignored_while_fixing_witness :
    busyClientState.isLoading = true
  ∧ clientStep busyClientState (.sandboxError 1 ("boom")) = busyClientState :=
  ⟨rfl, c5_duplicate_error_ignored_while_fixing busyClientState 1 ("boom") rfl⟩

/-- Claim C5, counterexample: two error reports for the same code version
(version 1, the only version ever rendered) trigger two self-correction
submissions when the second report arrives after the repair request has
completed without replacing the code. -/
theorem c5_counterexample :
    (runClient emptyClientState dupErrorTrace).version = 1
  ∧ (runClient emptyClientState dupErrorTrace).fixSubmissions = 2 :=
  ⟨rfl, rfl⟩

/-- Claim C6, amended: the page performs no version matching on sandbox
outcomes (the outcome payload carries no version and the handler ignores
the ghost tag), so a stale error report behaves exactly like a fresh one:
ignored while a request is in flight, and triggering one self-correction
submission otherwise. -/
theorem c6_outcomes_not_version_filtered :
    (∀ (s : ClientState) (v v2 : Nat) (message : String),
       clientStep s (.sandboxError v message) = clientStep s (.sandboxError v2 message))
  ∧ (∀ (s : ClientState) (v : Nat) (message : String), s.isLoading = false →
       (clientStep s (.sandboxError v message)).fixSubmissions = s.fixSubmissions + 1) := by
  refine ⟨fun s v v2 message => rfl, fun s v message h => ?_⟩
  simp [clientStep, h]

/-- Witness for claim C6's amended statement at a concrete idle state. -/
theorem c6_outcomes_not_version_filtered_witness :
    emptyClientState.isLoading = false
  ∧ (clientStep emptyClientState (.sandboxError 7 ("late error"))).fixSubmissions
      = emptyClientState.fixSubmissions + 1 :=
  ⟨rfl, c6_outcomes_not_version_filtered.2 emptyClientState 7 ("late error") rfl⟩

/-- Claim C6, counterexample: after code version 1 is superseded by
version 2, a sandbox error report belonging to version 1 still triggers a
self-correction submission (the claim requires zero). -/
theorem c6_counterexample :
    (runClient emptyClientState supersededTrace).version = 2
  ∧ (runClient emptyClientState supersededTrace).fixSubmissions = 0
  ∧ (clientStep (runClient emptyClientState supersededTrace)
       (.sandboxError 1 ("ReferenceError: x is not defined"))).fixSubmissions = 1 :=
  ⟨rfl, rfl, rfl⟩

/-- Claim C2, amended: in the page's status-machine loop a sandbox success
outcome sets the loop idle, records the synthetic successful tool result in
the history, and opens no further gateway request; in the `part_006`
revision (see the counterexample) the success outcome is instead reported
back to the model through one more gateway call. -/
theorem c2_success_terminates_loop (s : V2State) (h : s.status = .executing) :
    (handleRenderStatus s .success).status = .idle
  ∧ (handleRenderStatus s .success).history =
      s.history ++ [⟨"tool", [.functionResponsePart ("render_prototype") true ("Rendered successfully.")]⟩]
  ∧ (handleRenderStatus s .success).gatewayCalls = s.gatewayCalls := by
  simp [handleRenderStatus, h]

/-- Witness for claim C2 at a concrete executing state. -/
theorem c2_success_terminates_loop_witness :
    execV2State.status = .executing
  ∧ (handleRenderStatus execV2State .success).status = .idle
  ∧ (handleRenderStatus execV2State .success).gatewayCalls = execV2State.gatewayCalls :=
  ⟨rfl, (c2_success_terminates_loop execV2State rfl).1,
    (c2_success_terminates_loop execV2State rfl).2.2⟩

/-- Claim C2, counterexample: in the `part_006` revision of the page, a
sandbox success outcome issues one more gateway call (reporting the success
to the model) instead of terminating the loop. -/
theorem c2_counterexample :
    execV2State.gatewayCalls = 0
  ∧ (p6HandleRenderStatus execV2State .success).gatewayCalls = 1 :=
  ⟨rfl, rfl⟩

theorem runClient_append (s : ClientState) (a b : List ClientEvent) :
    runClient s (a ++ b) = runClient (runClient s a) b := by
  simp [runClient, List.foldl_append]

theorem fixRound_effect (s : ClientState) (h : s.isLoading = false) :
    (runClient s fixRound).isLoading = false
  ∧ (runClient s fixRound).fixSubmissions = s.fixSubmissions + 1 := by
  simp [runClient, fixRound, clientStep, sendMessage, h]

theorem fixTrace_effect (k : Nat) (s : ClientState) (h : s.isLoading = false) :
    (runClient s (fixTrace k)).isLoading = false
  ∧ (runClient s (fixTrace k)).fixSubmissions = s.fixSubmissions + k := by
  induction k generalizing s with
  | zero => exact ⟨h, rfl⟩
  | succ k ih =>
    have hsplit : fixTrace (k + 1) = fixRound ++ fixTrace k := by
      simp [fixTrace, List.replicate_succ]
    obtain ⟨h1, h2⟩ := fixRound_effect s h
    obtain ⟨h3, h4⟩ := ih (runClient s fixRound) h1
    refine ⟨by rw [hsplit, runClient_append]; exact h3, ?_⟩
    rw [hsplit, runClient_append, h4, h2]
    omega

/-- Claim C1, amended: the agent loop has no retry ceiling. Every sandbox
error report delivered while no request is in flight triggers a further
self-correction submission, so a run of `k` consecutive error outcomes
produces exactly `k` submissions, for every `k`; the loop never stops
issuing fixes on its own. -/
theorem c1_no_retry_ceiling (k : Nat) :
    (runClient emptyClientState (fixTrace k)).fixSubmissions = k ∧
    (runClient emptyClientState (fixTrace k)).isLoading = false := by
  obtain ⟨h1, h2⟩ := fixTrace_effect k emptyClientState rfl
  refine ⟨?_, h1⟩
  rw [h2]
  simp [emptyClientState]

/-- Claim C1, counterexample: no fixed ceiling bounds the number of
consecutive automatic self-correction submissions — for every candidate
bound there is a sandbox outcome sequence that exceeds it. -/
theorem c1_counterexample :
    ¬ ∃ m : Nat, ∀ k : Nat,
      (runClient emptyClientState (fixTrace k)).fixSubmissions ≤ m := by
  rintro ⟨m, hm⟩
  have h1 := hm (m + 1)
  have h2 := (fixTrace_effect (m + 1) emptyClientState rfl).2
  rw [h2] at h1
  simp [emptyClientState] at h1

theorem filterMap_toolCall_eq (ps : List (Option FCall)) :
    (ps.filterMap fun p => p.map fun fc => LineJson.toolCall fc.name fc.code)
      = (ps.filterMap id).map fun fc => LineJson.toolCall fc.name fc.code := by
  induction ps with
  | nil => rfl
  | cons hd tl ih => cases hd <;> simp [List.filterMap_cons, ih]

theorem filter_toolCall_map (l : List FCall) :
    ((l.map fun fc => LineJson.toolCall fc.name fc.code).filter isToolCallEv)
      = l.map fun fc => LineJson.toolCall fc.name fc.code := by
  induction l with
  | nil => rfl
  | cons hd tl ih => simp [isToolCallEv, ih]

theorem chunkEvents_filter (c : Chunk) :
    (chunkEvents c).filter isToolCallEv
      = ((c.parts.filterMap id).map fun fc => LineJson.toolCall fc.name fc.code)
        ++ (c.legacyCalls.map fun fc => LineJson.toolCall fc.name fc.code) := by
  simp only [chunkEvents, List.filter_append, filterMap_toolCall_eq, filter_toolCall_map]
  have htext : ((if c.text = "" then ([] : List LineJson) else [.text c.text]).filter isToolCallEv) = [] := by
    split <;> simp [isToolCallEv]
  rw [htext, List.nil_append]

theorem p12Loop_cons (sent : Bool) (c : Chunk) (rest : List Chunk) :
    p12Loop sent (c :: rest)
      = (p12ChunkEvents sent c).1 ++ p12Loop (p12ChunkEvents sent c).2 rest := rfl

theorem p12ChunkEvents_true (c : Chunk) :
    p12ChunkEvents true c
      = (if c.text = "" ∨ c.text.trim = "" then [] else [.text c.text], true) := rfl

theorem p12ChunkEvents_false_part (c : Chunk) (fc : FCall) (pfs : List FCall)
    (hp : c.parts.filterMap id = fc :: pfs) :
    p12ChunkEvents false c
      = ((if c.text = "" ∨ c.text.trim = "" then [] else [.text c.text])
          ++ [.toolCall fc.name fc.code], true) := by
  simp [p12ChunkEvents, hp]

theorem p12ChunkEvents_false_legacy (c : Chunk) (fc : FCall) (lcs : List FCall)
    (hp : c.parts.filterMap id = []) (hl : c.legacyCalls = fc :: lcs) :
    p12ChunkEvents false c
      = ((if c.text = "" ∨ c.text.trim = "" then [] else [.text c.text])
          ++ [.toolCall fc.name fc.code], true) := by
  simp [p12ChunkEvents, hp, hl]

theorem p12ChunkEvents_false_none (c : Chunk)
    (hp : c.parts.filterMap id = []) (hl : c.legacyCalls = []) :
    p12ChunkEvents false c
      = (if c.text = "" ∨ c.text.trim = "" then [] else [.text c.text], false) := by
  simp [p12ChunkEvents, hp, hl]

theorem p12TextEvents_filter (t : String) :
    ((if t = "" ∨ t.trim = "" then ([] : List LineJson) else [.text t]).filter isToolCallEv)
      = [] := by
  split <;> simp [isToolCallEv]

theorem p12Loop_true_filter (chunks : List Chunk) :
    (p12Loop true chunks).filter isToolCallEv = [] := by
  induction chunks with
  | nil => rfl
  | cons c rest ih =>
    rw [p12Loop_cons, p12ChunkEvents_true]
    simpa [List.filter_append, p12TextEvents_filter] using ih

theorem p12Loop_false_filter (chunks : List Chunk) :
    (p12Loop false chunks).filter isToolCallEv
      = ((chunks.flatMap chunkEvents).filter isToolCallEv).take 1 := by
  induction chunks with
  | nil => rfl
  | cons c rest ih =>
    rcases hp : c.parts.filterMap id with _ | ⟨fc, pfs⟩
    · rcases hl : c.legacyCalls with _ | ⟨lc, lcs⟩
      · rw [p12Loop_cons, p12ChunkEvents_false_none c hp hl]
        simp only [List.flatMap_cons, List.filter_append, chunkEvents_filter, hp, hl,
          List.map_nil, List.nil_append, p12TextEvents_filter]
        exact ih
      · rw [p12Loop_cons, p12ChunkEvents_false_legacy c lc lcs hp hl]
        simp only [List.flatMap_cons, List.filter_append, chunkEvents_filter, hp, hl,
          List.map_nil, List.nil_append, List.map_cons, List.filter_cons,
          p12TextEvents_filter, List.filter_append, p12Loop_true_filter]
        simp [isToolCallEv]
    · rw [p12Loop_cons, p12ChunkEvents_false_part c fc pfs hp]
      simp only [List.flatMap_cons, List.filter_append, chunkEvents_filter, hp,
        List.map_cons, List.cons_append, List.filter_cons,
        p12TextEvents_filter, p12Loop_true_filter]
      simp [isToolCallEv]

/-- Claim C3, amended: only the `part_012` revision of the agent route
enforces first-tool-call-wins — the tool calls it forwards are exactly the
first of those the current route forwards, hence at most one per turn; the
current route forwards every candidate tool call and the page applies each
in order, so the last one wins (see the counterexample). -/
theorem c3_p12_first_tool_call_wins (chunks : List Chunk) :
    (p12Translate chunks).filter isToolCallEv
      = ((routeTranslate chunks).filter isToolCallEv).take 1
  ∧ ((p12Translate chunks).filter isToolCallEv).length ≤ 1 := by
  have hdone : (([LineJson.done] : List LineJson).filter isToolCallEv) = [] := by
    simp [isToolCallEv]
  have h1 : (p12Translate chunks).filter isToolCallEv
      = ((routeTranslate chunks).filter isToolCallEv).take 1 := by
    simp only [p12Translate, routeTranslate, List.filter_append, hdone, List.append_nil]
    exact p12Loop_false_filter chunks
  refine ⟨h1, ?_⟩
  rw [h1]
  have := List.length_take 1 ((routeTranslate chunks).filter isToolCallEv)
  omega

/-- Claim C3, counterexample: when the model emits two candidate tool calls
in one turn, the current route forwards both and the page acts on both —
two code versions are handed to the sandbox and the second (not the first)
is the one left in place. -/
theorem c3_counterexample :
    (runClient emptyClientState twoToolCallTrace).codesSet
      = [("const A = 1"), ("const B = 2")]
  ∧ (runClient emptyClientState twoToolCallTrace).prototypeCode = ("const B = 2") :=
  ⟨rfl, rfl⟩

theorem gatewayCall_ok0 (call : Nat → Except GenError α) (r : α) (h0 : call 0 = .ok r) :
    gatewayCall call = (.ok r, 1, []) := by
  simp [gatewayCall, MAX_RETRIES, retryGo, h0]

theorem gatewayCall_err0 (call : Nat → Except GenError α) (e0 : GenError)
    (h0 : call 0 = .error e0) (hov0 : isOverloadedErr e0 = false) :
    gatewayCall call = (.error e0, 1, []) := by
  simp [gatewayCall, MAX_RETRIES, retryGo, h0, hov0]

theorem gatewayCall_ov0_ok1 (call : Nat → Except GenError α) (e0 : GenError) (r : α)
    (h0 : call 0 = .error e0) (hov0 : isOverloadedErr e0 = true) (h1 : call 1 = .ok r) :
    gatewayCall call = (.ok r, 2, [1000]) := by
  simp [gatewayCall, MAX_RETRIES, RETRY_DELAYS, retryGo, h0, hov0, h1]

theorem gatewayCall_ov0_err1 (call : Nat → Except GenError α) (e0 e1 : GenError)
    (h0 : call 0 = .error e0) (hov0 : isOverloadedErr e0 = true)
    (h1 : call 1 = .error e1) (hov1 : isOverloadedErr e1 = false) :
    gatewayCall call = (.error e1, 2, [1000]) := by
  simp [gatewayCall, MAX_RETRIES, RETRY_DELAYS, retryGo, h0, hov0, h1, hov1]

theorem gatewayCall_ov01_ok2 (call : Nat → Except GenError α) (e0 e1 : GenError) (r : α)
    (h0 : call 0 = .error e0) (hov0 : isOverloadedErr e0 = true)
    (h1 : call 1 = .error e1) (hov1 : isOverloadedErr e1 = true) (h2 : call 2 = .ok r) :
    gatewayCall call = (.ok r, 3, [1000, 2000]) := by
  simp [gatewayCall, MAX_RETRIES, RETRY_DELAYS, retryGo, h0, hov0, h1, hov1, h2]

theorem gatewayCall_ov01_err2 (call : Nat → Except GenError α) (e0 e1 e2 : GenError)
    (h0 : call 0 = .error e0) (hov0 : isOverloadedErr e0 = true)
    (h1 : call 1 = .error e1) (hov1 : isOverloadedErr e1 = true) (h2 : call 2 = .error e2) :
    gatewayCall call = (.error e2, 3, [1000, 2000]) := by
  simp [gatewayCall, MAX_RETRIES, RETRY_DELAYS, retryGo, h0, hov0, h1, hov1, h2]

/-- Claim C7: the gateway call attempts the model endpoint at most 3
times; a retry happens only after an overload-class failure (status 503 or
a message mentioning overload) and the delays slept form the strictly
increasing prefix of the 1000/2000/4000 schedule; a non-overload failure
is surfaced immediately, ending the attempts right there; and when every
attempt fails on overload the route answers with the terminal error event
marked retryable, followed by done. -/
theorem c7_gateway_retry_policy (call : Nat → Except GenError Nat) :
    gatewayAttempts call ≤ MAX_RETRIES
  ∧ gatewayDelays call = RETRY_DELAYS.take (gatewayAttempts call - 1)
  ∧ List.Chain' (· < ·) (gatewayDelays call)
  ∧ (∀ i, i + 1 < gatewayAttempts call → ∃ e, call i = .error e ∧ isOverloadedErr e = true)
  ∧ (∀ i e, i < gatewayAttempts call → call i = .error e → isOverloadedErr e = false →
       gatewayOutcome call = .error e ∧ gatewayAttempts call = i + 1)
  ∧ ((∀ i, i < MAX_RETRIES → ∃ e, call i = .error e ∧ isOverloadedErr e = true) →
       ∃ e, gatewayOutcome call = .error e ∧ isOverloadedErr e = true
            ∧ agentCatchResponse e = .ndjson [overloadErrorEvent, .done]) := by
  cases h0 : call 0 with
  | ok r0 =>
    have L := gatewayCall_ok0 call r0 h0
    have hA : gatewayAttempts call = 1 := by simp [gatewayAttempts, L]
    have hO : gatewayOutcome call = .ok r0 := by simp [gatewayOutcome, L]
    have hD : gatewayDelays call = [] := by simp [gatewayDelays, L]
    refine ⟨by rw [hA]; simp [MAX_RETRIES], by rw [hD, hA]; rfl, by rw [hD]; simp, ?_, ?_, ?_⟩
    · intro i hi; rw [hA] at hi; omega
    · intro i e hi he hov; rw [hA] at hi
      have hi0 : i = 0 := by omega
      rw [hi0, h0] at he; simp at he
    · intro hall
      obtain ⟨e, he, _⟩ := hall 0 (by simp [MAX_RETRIES])
      rw [h0] at he; simp at he
  | error e0 =>
    cases hov0 : isOverloadedErr e0 with
    | false =>
      have L := gatewayCall_err0 call e0 h0 hov0
      have hA : gatewayAttempts call = 1 := by simp [gatewayAttempts, L]
      have hO : gatewayOutcome call = .error e0 := by simp [gatewayOutcome, L]
      have hD : gatewayDelays call = [] := by simp [gatewayDelays, L]
      refine ⟨by rw [hA]; simp [MAX_RETRIES], by rw [hD, hA]; rfl, by rw [hD]; simp, ?_, ?_, ?_⟩
      · intro i hi; rw [hA] at hi; omega
      · intro i e hi he hov; rw [hA] at hi
        have hi0 : i = 0 := by omega
        rw [hi0, h0] at he
        have he0 : e0 = e := by simpa using he
        exact ⟨by rw [hO, he0], by rw [hA, hi0]⟩
      · intro hall
        obtain ⟨e, he, hove⟩ := hall 0 (by simp [MAX_RETRIES])
        rw [h0] at he
        have he0 : e0 = e := by simpa using he
        rw [← he0, hov0] at hove; simp at hove
    | true =>
      cases h1 : call 1 with
      | ok r1 =>
        have L := gatewayCall_ov0_ok1 call e0 r1 h0 hov0 h1
        have hA : gatewayAttempts call = 2 := by simp [gatewayAttempts, L]
        have hO : gatewayOutcome call = .ok r1 := by simp [gatewayOutcome, L]
        have hD : gatewayDelays call = [1000] := by simp [gatewayDelays, L]
        refine ⟨by rw [hA]; simp [MAX_RETRIES], by rw [hD, hA]; rfl, by rw [hD]; simp, ?_, ?_, ?_⟩
        · intro i hi; rw [hA] at hi
          have hi0 : i = 0 := by omega
          exact ⟨e0, by rw [hi0]; exact h0, hov0⟩
        · intro i e hi he hov; rw [hA] at hi
          match i, hi with
          | 0, _ =>
            rw [h0] at he
            have he0 : e0 = e := by simpa using he
            rw [← he0, hov0] at hov; simp at hov
          | 1, _ => rw [h1] at he; simp at he
        · intro hall
          obtain ⟨e, he, _⟩ := hall 1 (by simp [MAX_RETRIES])
          rw [h1] at he; simp at he
      | error e1 =>
        cases hov1 : isOverloadedErr e1 with
        | false =>
          have L := gatewayCall_ov0_err1 call e0 e1 h0 hov0 h1 hov1
          have hA : gatewayAttempts call = 2 := by simp [gatewayAttempts, L]
          have hO : gatewayOutcome call = .error e1 := by simp [gatewayOutcome, L]
          have hD : gatewayDelays call = [1000] := by simp [gatewayDelays, L]
          refine ⟨by rw [hA]; simp [MAX_RETRIES], by rw [hD, hA]; rfl, by rw [hD]; simp, ?_, ?_, ?_⟩
          · intro i hi; rw [hA] at hi
            have hi0 : i = 0 := by omega
            exact ⟨e0, by rw [hi0]; exact h0, hov0⟩
          · intro i e hi he hov; rw [hA] at hi
            match i, hi with
            | 0, _ =>
              rw [h0] at he
              have he0 : e0 = e := by simpa using he
              rw [← he0, hov0] at hov; simp at hov
            | 1, _ =>
              rw [h1] at he
              have he1 : e1 = e := by simpa using he
              exact ⟨by rw [hO, he1], by rw [hA]⟩
          · intro hall
            obtain ⟨e, he, hove⟩ := hall 1 (by simp [MAX_RETRIES])
            rw [h1] at he
            have he1 : e1 = e := by simpa using he
            rw [← he1, hov1] at hove; simp at hove
        | true =>
          cases h2 : call 2 with
          | ok r2 =>
            have L := gatewayCall_ov01_ok2 call e0 e1 r2 h0 hov0 h1 hov1 h2
            have hA : gatewayAttempts call = 3 := by simp [gatewayAttempts, L]
            have hO : gatewayOutcome call = .ok r2 := by simp [gatewayOutcome, L]
            have hD : gatewayDelays call = [1000, 2000] := by simp [gatewayDelays, L]
            refine ⟨by rw [hA]; simp [MAX_RETRIES], by rw [hD, hA]; rfl, by rw [hD]; simp, ?_, ?_, ?_⟩
            · intro i hi; rw [hA] at hi
              match i, hi with
              | 0, _ => exact ⟨e0, h0, hov0⟩
              | 1, _ => exact ⟨e1, h1, hov1⟩
            · intro i e hi he hov; rw [hA] at hi
              match i, hi with
              | 0, _ =>
                rw [h0] at he
                have he0 : e0 = e := by simpa using he
                rw [← he0, hov0] at hov; simp at hov
              | 1, _ =>
                rw [h1] at he
                have he1 : e1 = e := by simpa using he
                rw [← he1, hov1] at hov; simp at hov
              | 2, _ => rw [h2] at he; simp at he
            · intro hall
              obtain ⟨e, he, _⟩ := hall 2 (by simp [MAX_RETRIES])
              rw [h2] at he; simp at he
          | error e2 =>
            have L := gatewayCall_ov01_err2 call e0 e1 e2 h0 hov0 h1 hov1 h2
            have hA : gatewayAttempts call = 3 := by simp [gatewayAttempts, L]
            have hO : gatewayOutcome call = .error e2 := by simp [gatewayOutcome, L]
            have hD : gatewayDelays call = [1000, 2000] := by simp [gatewayDelays, L]
            refine ⟨by rw [hA]; simp [MAX_RETRIES], by rw [hD, hA]; rfl, by rw [hD]; simp, ?_, ?_, ?_⟩
            · intro i hi; rw [hA] at hi
              match i, hi with
              | 0, _ => exact ⟨e0, h0, hov0⟩
              | 1, _ => exact ⟨e1, h1, hov1⟩
            · intro i e hi he hov; rw [hA] at hi
              match i, hi with
              | 0, _ =>
                rw [h0] at he
                have he0 : e0 = e := by simpa using he
                rw [← he0, hov0] at hov; simp at hov
              | 1, _ =>
                rw [h1] at he
                have he1 : e1 = e := by simpa using he
                rw [← he1, hov1] at hov; simp at hov
              | 2, _ =>
                rw [h2] at he
                have he2 : e2 = e := by simpa using he
                exact ⟨by rw [hO, he2], by rw [hA]⟩
            · intro hall
              obtain ⟨e, he, hove⟩ := hall 2 (by simp [MAX_RETRIES])
              rw [h2] at he
              have he2 : e2 = e := by simpa using he
              refine ⟨e2, hO, by rw [he2]; exact hove, ?_⟩
              have hov2 : isOverloadedErr e2 = true := by rw [he2]; exact hove
              simp [agentCatchResponse, hov2]

/-- Witness for claim C7: a call that fails with an overload error on
every attempt ends with the retryable error stream. -/
theorem c7_gateway_retry_policy_witness :
    (∀ i, i < MAX_RETRIES → ∃ e, overloadCall i = .error e ∧ isOverloadedErr e = true)
  ∧ ∃ e, gatewayOutcome overloadCall = .error e ∧ isOverloadedErr e = true
        ∧ agentCatchResponse e = .ndjson [overloadErrorEvent, .done] := by
  have hall : ∀ i, i < MAX_RETRIES → ∃ e, overloadCall i = .error e ∧ isOverloadedErr e = true :=
    fun i _ => ⟨⟨some 503, "The model is overloaded"⟩, rfl, by decide⟩
  exact ⟨hall, (c7_gateway_retry_policy overloadCall).2.2.2.2.2 hall⟩

/-- Claim C8, amended: in the current `db.ts`, a failing store write is
caught inside `writeDb`, logged, and swallowed, so `savePrototype` always
completes normally for its caller; in the earlier revision of `db.ts` the
write is unguarded and the failure propagates out of `savePrototype` (see
the counterexample). -/
theorem c8_write_failures_swallowed (table : PrototypeTable) (id : String)
    (data : SavePrototypeData) (now : Nat) (w : FsWriteResult) :
    (∃ r, savePrototype table id data now w = .ok r)
  ∧ (∀ e, w = .error e → (writeDb w).2 = [("[DB] Write failed (serverless?): " ++ e)])
  ∧ (∀ e, w = .error e → savePrototypeRev table id data now w = .error e) := by
  cases w with
  | ok u =>
    cases u
    refine ⟨⟨_, rfl⟩, ?_, ?_⟩ <;> intro e he <;> simp at he
  | error e0 =>
    refine ⟨⟨_, rfl⟩, ?_, ?_⟩ <;> intro e he <;>
      simp only [FsWriteResult] at he
    · rw [show e = e0 from by simpa using he.symm]
      rfl
    · rw [show e = e0 from by simpa using he.symm]
      rfl

/-- Witness for claim C8 at a concrete failing write. -/
theorem c8_write_failures_swallowed_witness :
    (∃ r, savePrototype [] ("p1") sampleSaveData 5 (.error ("ENOSPC: no space left on device")) = .ok r)
  ∧ savePrototypeRev [] ("p1") sampleSaveData 5 (.error ("ENOSPC: no space left on device"))
      = .error ("ENOSPC: no space left on device") :=
  ⟨(c8_write_failures_swallowed [] ("p1") sampleSaveData 5
      (.error ("ENOSPC: no space left on device"))).1,
   (c8_write_failures_swallowed [] ("p1") sampleSaveData 5
      (.error ("ENOSPC: no space left on device"))).2.2 ("ENOSPC: no space left on device") rfl⟩

/-- Claim C8, counterexample: in the earlier revision of `db.ts`, a failing
file write propagates out of `savePrototype` to the caller instead of being
swallowed. -/
theorem c8_counterexample :
    savePrototypeRev [] ("p1") sampleSaveData 5 (.error ("ENOSPC: no space left on device"))
      = .error ("ENOSPC: no space left on device") := rfl

/-- Claim C10: when a first-turn request carries a (truthy) paper context,
the injected paper-text turn holds exactly the first 35000 characters plus
the fixed truncation marker when the paper exceeds 40000 characters, and
the full text unchanged otherwise; and the injection happens only when the
supplied history is empty — with a non-empty history the transcript is
built exactly as if no paper context had been supplied. -/
theorem c10_paper_context_injection (p : String) (hp : p ≠ "")
    (message : Option String) (fr : Option BodyFuncResp) :
    (40000 < p.length →
       (buildContents [] message fr (some p)).take 2 =
         [⟨"user", [.textPart (("PAPER TEXT:\n\n") ++ (p.take 35000 ++ PAPER_TRUNC_MARKER))]⟩,
          paperAckTurn])
  ∧ (p.length ≤ 40000 →
       (buildContents [] message fr (some p)).take 2 =
         [⟨"user", [.textPart (("PAPER TEXT:\n\n") ++ p)]⟩, paperAckTurn])
  ∧ (∀ (h0 : GTurn) (rest : List GTurn),
       buildContents (h0 :: rest) message fr (some p)
         = buildContents (h0 :: rest) message fr none) := by
  refine ⟨?_, ?_, ?_⟩
  · intro hlen
    cases message with
    | none =>
      cases fr with
      | none => simp [buildContents, hp, hlen]
      | some frv =>
        by_cases hc : frv.success = false ∧ frv.error ≠ "" <;>
          simp [buildContents, hp, hlen, hc]
    | some m =>
      cases fr with
      | none => simp [buildContents, hp, hlen]
      | some frv =>
        by_cases hc : frv.success = false ∧ frv.error ≠ "" <;>
          simp [buildContents, hp, hlen, hc]
  · intro hlen
    have hlt : ¬ 40000 < p.length := by omega
    cases message with
    | none =>
      cases fr with
      | none => simp [buildContents, hp, hlt]
      | some frv =>
        by_cases hc : frv.success = false ∧ frv.error ≠ "" <;>
          simp [buildContents, hp, hlt, hc]
    | some m =>
      cases fr with
      | none => simp [buildContents, hp, hlt]
      | some frv =>
        by_cases hc : frv.success = false ∧ frv.error ≠ "" <;>
          simp [buildContents, hp, hlt, hc]
  · intro h0 rest
    cases message <;> cases fr <;> simp [buildContents]

/-- Witness for claim C10 at a concrete short paper. -/
theorem c10_paper_context_injection_witness :
    ("x" : String) ≠ ""
  ∧ ("x" : String).length ≤ 40000
  ∧ (buildContents [] none none (some ("x"))).take 2 =
      [⟨"user", [.textPart (("PAPER TEXT:\n\n") ++ ("x"))]⟩, paperAckTurn] :=
  ⟨by decide, by decide,
    (c10_paper_context_injection ("x") (by decide) none none).2.1 (by decide)⟩
